import Mathlib

/-!
Verification of the domparser-tests repository: a shallow embedding of
its XML well-formedness classifier (tryParseXml), its oracle adapter
(parseXmlNative / serialiseXmlNative), its test runner (performTest /
entrypoint aggregation) and two representative manifest loaders
(getOasisTests, getEduniTests), with theorems settling the frozen claims.

The DOM tree is modelled as a simple node inductive; DOMParser is modelled
as an abstract oracle returning either a document or a thrown exception
(spec section 4.1 permits both).  Randomised sentinel keys are modelled as
explicit string parameters.
-/

/-- A DOM node, as observed by the source: elements (with attributes and
children), processing instructions, text and comments. -/
inductive Node where
  | element (name : String) (attrs : List (String × String)) (children : List Node)
  | pi (target : String) (data : String)
  | text (s : String)
  | comment (s : String)

/-- An XMLDocument: the document node's child list. -/
structure XmlDoc where
  children : List Node

/-- Outcome of DOMParser.parseFromString: a document, or a thrown
exception (spec 4.1: the oracle may throw). -/
inductive ParseOutcome where
  | ok (doc : XmlDoc)
  | thrown

/-- The oracle adapter of spec 4.1: parse plus a total, deterministic
serialiser (XMLSerializer.serializeToString). -/
structure Oracle where
  parse : String → ParseOutcome
  serialise : XmlDoc → String

/-- A JavaScript value as far as tryParseXml observes it: a string, or
anything failing the typeof check. -/
inductive JSValue where
  | str (s : String)
  | nonString

/-- The sentinel trailer appended to the source in tryParseXml
(src/test.js line 23): the processing instruction text for the key. -/
def piStr (key : String) : String := "<?" ++ key ++ "?>"

/-- The last-child check of src/test.js lines 29-34: the document's last
child must be a processing instruction whose target is the key and whose
data is empty. -/
def goodTrailer (doc : XmlDoc) (key : String) : Bool :=
  match doc.children.getLast? with
  | some (Node.pi target data) => target == key && data == ""
  | _ => false

/-- tryParseXml from src/test.js lines 7-39 (same algorithm as
src/tryParseXml.js): reject non-strings; parse source plus sentinel
trailer, treating a throw as no document; reject unless the last child is
the sentinel processing instruction; otherwise remove the trailer and
return the document. -/
def tryParseXml (O : Oracle) (key : String) : JSValue → Option XmlDoc
  | JSValue.nonString => none
  | JSValue.str src =>
    match O.parse (src ++ piStr key) with
    | ParseOutcome.thrown => none
    | ParseOutcome.ok doc =>
      match doc.children.getLast? with
      | some (Node.pi target data) =>
        if target == key && data == "" then some ⟨doc.children.dropLast⟩
        else none
      | _ => none

/-- tryParseXml instrumented with the number of oracle parse calls it
performs, mirroring the control flow of src/test.js lines 7-39. -/
def tryParseXmlTraced (O : Oracle) (key : String) : JSValue → Option XmlDoc × Nat
  | JSValue.nonString => (none, 0)
  | JSValue.str src =>
    match O.parse (src ++ piStr key) with
    | ParseOutcome.thrown => (none, 1)
    | ParseOutcome.ok doc =>
      (match doc.children.getLast? with
       | some (Node.pi target data) =>
         if target == key && data == "" then some ⟨doc.children.dropLast⟩
         else none
       | _ => none, 1)

/-- The traced variant computes the same result as tryParseXml. -/
theorem tryParseXmlTraced_fst (O : Oracle) (key : String) (v : JSValue) :
    (tryParseXmlTraced O key v).1 = tryParseXml O key v := by
  cases v with
  | nonString => rfl
  | str src =>
    cases hp : O.parse (src ++ piStr key) <;>
      simp [tryParseXml, tryParseXmlTraced, hp]

/-- Key evaluation lemma: on a string input whose probe parse yields a
document, tryParseXml is the last-child check followed by trailer
removal. -/
theorem tryParseXml_ok_eq (O : Oracle) (key s : String) (d : XmlDoc)
    (h : O.parse (s ++ piStr key) = ParseOutcome.ok d) :
    tryParseXml O key (JSValue.str s) =
      (if goodTrailer d key then some ⟨d.children.dropLast⟩ else none) := by
  simp only [tryParseXml, h]
  unfold goodTrailer
  split <;> rename_i heq
  · simp [heq]
  · rename_i hne
    rcases hl : d.children.getLast? with _ | n
    · simp
    · cases n <;> simp_all

/-- C3: after parsing the source with the sentinel trailer appended,
tryParseXml returns null whenever the resulting document's last child is
not a processing instruction with target equal to the generated token and
empty data; otherwise it removes that trailer node and returns the
remaining document (src/test.js lines 29-38, src/tryParseXml.js lines
25-34). -/
theorem tryParseXml_sentinel_check (O : Oracle) (key s : String) (d : XmlDoc)
    (h : O.parse (s ++ piStr key) = ParseOutcome.ok d) :
    (goodTrailer d key = false → tryParseXml O key (JSValue.str s) = none) ∧
    (goodTrailer d key = true →
      tryParseXml O key (JSValue.str s) = some ⟨d.children.dropLast⟩) := by
  have hmain := tryParseXml_ok_eq O key s d h
  constructor <;> intro hg <;> simp [hmain, hg]

/-- C3 witness: a concrete oracle for which both branches of the sentinel
check are exercised. -/
theorem tryParseXml_sentinel_check_witness :
    (Oracle.mk
        (fun s => if s = "<a/>" ++ piStr "a0" then
          ParseOutcome.ok ⟨[Node.element "a" [] [], Node.pi "a0" ""]⟩
          else ParseOutcome.thrown)
        (fun _ => "")).parse ("<a/>" ++ piStr "a0") =
      ParseOutcome.ok ⟨[Node.element "a" [] [], Node.pi "a0" ""]⟩ ∧
    goodTrailer ⟨[Node.element "a" [] [], Node.pi "a0" ""]⟩ "a0" = true ∧
    tryParseXml
        (Oracle.mk
          (fun s => if s = "<a/>" ++ piStr "a0" then
            ParseOutcome.ok ⟨[Node.element "a" [] [], Node.pi "a0" ""]⟩
            else ParseOutcome.thrown)
          (fun _ => ""))
        "a0" (JSValue.str "<a/>") = some ⟨[Node.element "a" [] []]⟩ :=
  ⟨rfl, rfl, by
    have h := tryParseXml_sentinel_check
      (Oracle.mk
        (fun s => if s = "<a/>" ++ piStr "a0" then
          ParseOutcome.ok ⟨[Node.element "a" [] [], Node.pi "a0" ""]⟩
          else ParseOutcome.thrown)
        (fun _ => ""))
      "a0" "<a/>" ⟨[Node.element "a" [] [], Node.pi "a0" ""]⟩ rfl
    exact h.2 rfl⟩

/-- C5: for any non-string input tryParseXml returns null immediately:
the result is none, the instrumented variant performs zero oracle parse
calls, and the result does not depend on the oracle at all
(src/test.js lines 15-16, src/tryParseXml.js lines 11-12). -/
theorem tryParseXml_nonString (O Oalt : Oracle) (key keyAlt : String) :
    tryParseXml O key JSValue.nonString = none ∧
    tryParseXmlTraced O key JSValue.nonString = (none, 0) ∧
    tryParseXml O key JSValue.nonString = tryParseXml Oalt keyAlt JSValue.nonString :=
  ⟨rfl, rfl, rfl⟩

/-- C6: a throw from the oracle's parse is caught inside tryParseXml
(src/test.js lines 20-27): the verdict is null, exactly as for a
failure-mode (a) oracle whose returned document lacks the sentinel
trailer; no exception propagates (tryParseXml is a total function). -/
theorem tryParseXml_thrown (O Oa : Oracle) (key s : String) (d : XmlDoc)
    (hthrow : O.parse (s ++ piStr key) = ParseOutcome.thrown) :
    tryParseXml O key (JSValue.str s) = none ∧
    (Oa.parse (s ++ piStr key) = ParseOutcome.ok d → goodTrailer d key = false →
      tryParseXml O key (JSValue.str s) = tryParseXml Oa key (JSValue.str s)) := by
  have h1 : tryParseXml O key (JSValue.str s) = none := by
    simp [tryParseXml, hthrow]
  refine ⟨h1, fun ha hg => ?_⟩
  rw [h1, tryParseXml_ok_eq Oa key s d ha, hg]
  rfl

/-- C6 witness: an always-throwing oracle and a discard-mode oracle give
the same null verdict on a concrete input. -/
theorem tryParseXml_thrown_witness :
    tryParseXml (Oracle.mk (fun _ => ParseOutcome.thrown) (fun _ => ""))
        "a0" (JSValue.str "<a") = none ∧
    tryParseXml (Oracle.mk (fun _ => ParseOutcome.thrown) (fun _ => ""))
        "a0" (JSValue.str "<a") =
      tryParseXml
        (Oracle.mk
          (fun _ => ParseOutcome.ok ⟨[Node.element "parsererror" [] []]⟩)
          (fun _ => ""))
        "a0" (JSValue.str "<a") := by
  have h := tryParseXml_thrown
    (Oracle.mk (fun _ => ParseOutcome.thrown) (fun _ => ""))
    (Oracle.mk (fun _ => ParseOutcome.ok ⟨[Node.element "parsererror" [] []]⟩)
      (fun _ => ""))
    "a0" "<a" ⟨[Node.element "parsererror" [] []]⟩ rfl
  exact ⟨h.1, h.2 rfl rfl⟩

/-- The reference string computed by the harness at src/test.js lines
161-162: serialiseXmlNative applied to parseXmlNative of the source
(none models the uncaught-throw path). -/
def nativeReference (O : Oracle) (s : String) : Option String :=
  match O.parse s with
  | ParseOutcome.ok d => some (O.serialise d)
  | ParseOutcome.thrown => none

/-- C4: for a well-formed input (oracle parses it to a document, and per
the XML-grammar contract of spec 4.2 parses the probed string to the same
children with the sentinel trailer appended), tryParseXml returns exactly
the direct-parse document, so the serialisations agree byte for byte. -/
theorem tryParseXml_preserves_wellformed (O : Oracle) (key s : String) (d0 : XmlDoc)
    (h0 : O.parse s = ParseOutcome.ok d0)
    (h1 : O.parse (s ++ piStr key) =
      ParseOutcome.ok ⟨d0.children ++ [Node.pi key ""]⟩) :
    tryParseXml O key (JSValue.str s) = some d0 ∧
    (∀ d, tryParseXml O key (JSValue.str s) = some d →
      some (O.serialise d) = nativeReference O s) := by
  have hgt : goodTrailer ⟨d0.children ++ [Node.pi key ""]⟩ key = true := by
    simp [goodTrailer]
  have hres : tryParseXml O key (JSValue.str s) = some d0 := by
    rw [tryParseXml_ok_eq O key s ⟨d0.children ++ [Node.pi key ""]⟩ h1, hgt]
    simp
  refine ⟨hres, fun d hd => ?_⟩
  rw [hres] at hd
  cases hd
  simp [nativeReference, h0]

/-- C4 witness: a concrete well-formed input on which the probe returns
the direct-parse document and the reference serialisation matches. -/
theorem tryParseXml_preserves_wellformed_witness :
    tryParseXml
        (Oracle.mk
          (fun s =>
            if s = "<a/>" then ParseOutcome.ok ⟨[Node.element "a" [] []]⟩
            else if s = "<a/>" ++ piStr "a0" then
              ParseOutcome.ok ⟨[Node.element "a" [] [], Node.pi "a0" ""]⟩
            else ParseOutcome.thrown)
          (fun d => if d.children.length = 1 then "<a/>" else "?"))
        "a0" (JSValue.str "<a/>") = some ⟨[Node.element "a" [] []]⟩ ∧
    some ((Oracle.mk
          (fun s =>
            if s = "<a/>" then ParseOutcome.ok ⟨[Node.element "a" [] []]⟩
            else if s = "<a/>" ++ piStr "a0" then
              ParseOutcome.ok ⟨[Node.element "a" [] [], Node.pi "a0" ""]⟩
            else ParseOutcome.thrown)
          (fun d => if d.children.length = 1 then "<a/>" else "?")).serialise
        ⟨[Node.element "a" [] []]⟩) =
      nativeReference
        (Oracle.mk
          (fun s =>
            if s = "<a/>" then ParseOutcome.ok ⟨[Node.element "a" [] []]⟩
            else if s = "<a/>" ++ piStr "a0" then
              ParseOutcome.ok ⟨[Node.element "a" [] [], Node.pi "a0" ""]⟩
            else ParseOutcome.thrown)
          (fun d => if d.children.length = 1 then "<a/>" else "?"))
        "<a/>" := by
  have h := tryParseXml_preserves_wellformed
    (Oracle.mk
      (fun s =>
        if s = "<a/>" then ParseOutcome.ok ⟨[Node.element "a" [] []]⟩
        else if s = "<a/>" ++ piStr "a0" then
          ParseOutcome.ok ⟨[Node.element "a" [] [], Node.pi "a0" ""]⟩
        else ParseOutcome.thrown)
      (fun d => if d.children.length = 1 then "<a/>" else "?"))
    "a0" "<a/>" ⟨[Node.element "a" [] []]⟩ rfl rfl
  exact ⟨h.1, h.2 ⟨[Node.element "a" [] []]⟩ h.1⟩

/-- The boolean verdict of the classifier: whether tryParseXml produced a
document. -/
def sentinelVerdict (O : Oracle) (key src : String) : Bool :=
  (tryParseXml O key (JSValue.str src)).isSome

/-- Key-uniformity of a deterministic oracle across two sentinel tokens,
the behavioural content of the XML-grammar rationale of spec 4.2: the two
probe parses either both throw, or both return documents on which the
last-child check agrees (a processing-instruction trailer appended after
well-formed content survives the parse for any token, and is absent or
corrupted for any token otherwise). -/
def keyUniform (O : Oracle) (src k1 k2 : String) : Bool :=
  match O.parse (src ++ piStr k1), O.parse (src ++ piStr k2) with
  | ParseOutcome.thrown, ParseOutcome.thrown => true
  | ParseOutcome.ok d1, ParseOutcome.ok d2 => goodTrailer d1 k1 == goodTrailer d2 k2
  | _, _ => false

/-- The verdict factors through the parse outcome and the last-child
check alone. -/
theorem sentinelVerdict_eq (O : Oracle) (key s : String) :
    sentinelVerdict O key s =
      (match O.parse (s ++ piStr key) with
       | ParseOutcome.ok d => goodTrailer d key
       | ParseOutcome.thrown => false) := by
  rcases hp : O.parse (s ++ piStr key) with d | _
  · rw [sentinelVerdict, tryParseXml_ok_eq O key s d hp]
    by_cases hg : goodTrailer d key <;> simp [hg]
  · simp [sentinelVerdict, tryParseXml, hp]

/-- C9: against one deterministic, key-uniform oracle, two classifier
calls on the same source return the same verdict even though each call
generates a fresh sentinel token (src/test.js lines 7-39). -/
theorem sentinelVerdict_deterministic (O : Oracle) (s k1 k2 : String)
    (h : keyUniform O s k1 k2 = true) :
    sentinelVerdict O k1 s = sentinelVerdict O k2 s := by
  rw [sentinelVerdict_eq, sentinelVerdict_eq]
  unfold keyUniform at h
  rcases h1 : O.parse (s ++ piStr k1) with d1 | _ <;>
    rcases h2 : O.parse (s ++ piStr k2) with d2 | _ <;>
      rw [h1, h2] at h <;> simp_all

/-- C9 witness: two distinct fresh tokens on the same source, against a
concrete key-uniform oracle, give equal verdicts. -/
theorem sentinelVerdict_deterministic_witness :
    keyUniform
        (Oracle.mk
          (fun s =>
            if s = "<a/>" ++ piStr "a0x" then
              ParseOutcome.ok ⟨[Node.element "a" [] [], Node.pi "a0x" ""]⟩
            else if s = "<a/>" ++ piStr "a0y" then
              ParseOutcome.ok ⟨[Node.element "a" [] [], Node.pi "a0y" ""]⟩
            else ParseOutcome.thrown)
          (fun _ => ""))
        "<a/>" "a0x" "a0y" = true ∧
    sentinelVerdict
        (Oracle.mk
          (fun s =>
            if s = "<a/>" ++ piStr "a0x" then
              ParseOutcome.ok ⟨[Node.element "a" [] [], Node.pi "a0x" ""]⟩
            else if s = "<a/>" ++ piStr "a0y" then
              ParseOutcome.ok ⟨[Node.element "a" [] [], Node.pi "a0y" ""]⟩
            else ParseOutcome.thrown)
          (fun _ => ""))
        "a0x" "<a/>" =
      sentinelVerdict
        (Oracle.mk
          (fun s =>
            if s = "<a/>" ++ piStr "a0x" then
              ParseOutcome.ok ⟨[Node.element "a" [] [], Node.pi "a0x" ""]⟩
            else if s = "<a/>" ++ piStr "a0y" then
              ParseOutcome.ok ⟨[Node.element "a" [] [], Node.pi "a0y" ""]⟩
            else ParseOutcome.thrown)
          (fun _ => ""))
        "a0y" "<a/>" :=
  ⟨rfl, sentinelVerdict_deterministic
    (Oracle.mk
      (fun s =>
        if s = "<a/>" ++ piStr "a0x" then
          ParseOutcome.ok ⟨[Node.element "a" [] [], Node.pi "a0x" ""]⟩
        else if s = "<a/>" ++ piStr "a0y" then
          ParseOutcome.ok ⟨[Node.element "a" [] [], Node.pi "a0y" ""]⟩
        else ParseOutcome.thrown)
      (fun _ => ""))
    "<a/>" "a0x" "a0y" rfl⟩

/-- The argument of serialiseXmlNative as its instanceof check observes
it: a Document, or anything else (null, strings, numbers, ...). -/
inductive DocArg where
  | doc (d : XmlDoc)
  | notDoc

/-- The only exception serialiseXmlNative itself raises. -/
inductive JsError where
  | typeError

/-- serialiseXmlNative from src/test.js lines 48-53: throw a TypeError
unless the argument is a Document, otherwise return the serialiser's
string. -/
def serialiseXmlNative (O : Oracle) : DocArg → Except JsError String
  | DocArg.doc d => Except.ok (O.serialise d)
  | DocArg.notDoc => Except.error JsError.typeError

/-- C10: serialiseXmlNative throws a TypeError exactly on non-Document
arguments, and on a Document argument returns the serialiser's string
without throwing (src/test.js lines 48-53). -/
theorem serialiseXmlNative_typeError_iff (O : Oracle) (a : DocArg) :
    ((∃ e, serialiseXmlNative O a = Except.error e) ↔ a = DocArg.notDoc) ∧
    (∀ d, serialiseXmlNative O (DocArg.doc d) = Except.ok (O.serialise d)) := by
  refine ⟨⟨?_, ?_⟩, fun d => rfl⟩
  · rintro ⟨e, he⟩
    cases a
    · simp [serialiseXmlNative] at he
    · rfl
  · rintro rfl
    exact ⟨JsError.typeError, rfl⟩

mutual
/-- Number of error-marker (parsererror) elements in a node, itself
included. -/
def countErrNode : Node → Nat
  | Node.element name _ cs =>
    (if name == "parsererror" then 1 else 0) + countErrList cs
  | _ => 0
/-- Number of error-marker (parsererror) elements in a node list. -/
def countErrList : List Node → Nat
  | [] => 0
  | c :: cs => countErrNode c + countErrList cs
end

/-- Modelled from the spec: the Differential Probe of spec 4.3 composed
with the Sentinel Probe per spec 4.4, following the code sample in
src/answer.md (no executable source file implements this step): count
error markers in the sentinel result; if nonzero, re-parse the source
with an unterminated trailer appended and report malformed exactly when
the two marker counts are equal.  The error value models the uncaught
throw of the second parse. -/
def classifySpec (O : Oracle) (key : String) : JSValue → Except Unit (Option XmlDoc)
  | JSValue.nonString => Except.ok none
  | JSValue.str src =>
    match tryParseXml O key (JSValue.str src) with
    | none => Except.ok none
    | some doc =>
      if countErrList doc.children = 0 then Except.ok (some doc)
      else
        match O.parse (src ++ "<?") with
        | ParseOutcome.thrown => Except.error ()
        | ParseOutcome.ok doc2 =>
          if countErrList doc2.children = countErrList doc.children then
            Except.ok none
          else Except.ok (some doc)

/-- The regression input of spec section 8 and src/unnamed/part_002: a
namespace malformity after which a splice-mode oracle keeps the trailing
processing instruction intact. -/
def srcReg : String := "<a xmlns=\"http://www.w3.org/XML/1998/namespace\"/><?b?>"

/-- The root element a splice-mode (blink-style) oracle produces for
srcReg: the original element with one parsererror marker spliced in. -/
def spliceRoot : Node :=
  Node.element "a" [("xmlns", "http://www.w3.org/XML/1998/namespace")]
    [Node.element "parsererror" [] [Node.text "namespace error"]]

/-- A splice-mode oracle (failure-mode b of spec 4.1) at the regression
input: it retains the source's processing instructions, splices exactly
one parsererror marker, and keeps the appended sentinel trailer intact
(the behaviour documented in src/unnamed/part_002 lines 36-45). -/
def spliceOracle : Oracle where
  parse := fun s =>
    if s = srcReg ++ piStr "a0k" then
      ParseOutcome.ok ⟨[spliceRoot, Node.pi "b" "", Node.pi "a0k" ""]⟩
    else if s = srcReg ++ "<?" then
      ParseOutcome.ok ⟨[spliceRoot, Node.pi "b" ""]⟩
    else ParseOutcome.thrown
  serialise := fun _ => ""

/-- C1: at the regression input under the splice-mode oracle, tryParseXml
(src/test.js lines 7-39) returns the spliced document as well-formed even
though its error-marker count is nonzero, performing no differential
probe; the spec-modelled classifier of spec 4.3/4.4 (classifySpec)
instead re-parses the deliberately malformed variant, finds equal marker
counts, and returns malformed. -/
theorem tryParseXml_skips_differential_probe :
    tryParseXml spliceOracle "a0k" (JSValue.str srcReg) =
      some ⟨[spliceRoot, Node.pi "b" ""]⟩ ∧
    countErrList [spliceRoot, Node.pi "b" ""] = 1 ∧
    classifySpec spliceOracle "a0k" (JSValue.str srcReg) = Except.ok none :=
  ⟨rfl, rfl, rfl⟩

/-- C2: at the regression input of spec section 8, under the splice-mode
oracle that leaves the trailing processing instruction intact, tryParseXml
does not return null: the sentinel check passes and the spliced document
is returned (src/test.js lines 26-38). -/
theorem tryParseXml_regression_returns_document :
    (tryParseXml spliceOracle "a0k" (JSValue.str srcReg)).isSome = true ∧
    tryParseXml spliceOracle "a0k" (JSValue.str srcReg) ≠ none := by
  refine ⟨rfl, ?_⟩
  intro h
  rw [show tryParseXml spliceOracle "a0k" (JSValue.str srcReg) =
        some ⟨[spliceRoot, Node.pi "b" ""]⟩ from rfl] at h
  exact Option.noConfusion h

/-- A test-case descriptor as the manifest loaders produce it
(src/test.js, the objects pushed by each loader). -/
structure TestCase where
  url : String
  wellformed : Bool
deriving DecidableEq

/-- The result of one performTest task: a settled pass/fail outcome, or
an exception escaping the per-case boundary (the statements at
src/test.js lines 161-162 run outside the try block). -/
inductive TestOutcome where
  | settled (pass : Bool)
  | escaped
deriving DecidableEq, BEq

/-- performTest from src/test.js lines 154-195: fetch the fixture (a
failed fetch settles as a failure); compute the reference serialisation
via parseXmlNative and serialiseXmlNative outside the try block (a
throwing reference parse escapes); then assert inside the try block that
tryParseXml agrees with the expectation, a well-formed case additionally
requiring the serialisation to match the reference. -/
def performTest (O : Oracle) (key : String) (fetch : String → Option String)
    (t : TestCase) : TestOutcome :=
  match fetch t.url with
  | none => TestOutcome.settled false
  | some xml =>
    match O.parse xml with
    | ParseOutcome.thrown => TestOutcome.escaped
    | ParseOutcome.ok expectDoc =>
      let expectString := O.serialise expectDoc
      if t.wellformed then
        match tryParseXml O key (JSValue.str xml) with
        | none => TestOutcome.settled false
        | some doc => TestOutcome.settled (O.serialise doc == expectString)
      else
        match tryParseXml O key (JSValue.str xml) with
        | none => TestOutcome.settled true
        | some _ => TestOutcome.settled false

/-- The runner's pass counter (src/test.js lines 123-132). -/
def passCount (O : Oracle) (key : String) (fetch : String → Option String)
    (ts : List TestCase) : Nat :=
  ts.countP (fun t => performTest O key fetch t == TestOutcome.settled true)

/-- The runner's failure count: the length of failDetailsList
(src/test.js lines 123-132). -/
def failCount (O : Oracle) (key : String) (fetch : String → Option String)
    (ts : List TestCase) : Nat :=
  ts.countP (fun t => performTest O key fetch t == TestOutcome.settled false)

/-- C7 counterexample: a single test case whose fixture the reference
parse throws on escapes the per-case boundary, yields no outcome, and
leaves passed + failed equal to 0 while the total is 1 — so the
invariant does not always hold. -/
theorem runner_invariant_counterexample :
    performTest (Oracle.mk (fun _ => ParseOutcome.thrown) (fun _ => ""))
        "a0" (fun _ => some "<a") ⟨"u", true⟩ = TestOutcome.escaped ∧
    ¬ (passCount (Oracle.mk (fun _ => ParseOutcome.thrown) (fun _ => ""))
          "a0" (fun _ => some "<a") [⟨"u", true⟩] +
        failCount (Oracle.mk (fun _ => ParseOutcome.thrown) (fun _ => ""))
          "a0" (fun _ => some "<a") [⟨"u", true⟩] =
        ([(⟨"u", true⟩ : TestCase)] : List TestCase).length) := by
  exact ⟨rfl, by decide⟩

/-- C7 amended: whenever no case's reference parse throws (in particular
whenever every fetch fails, since a failed fetch settles as a failure
before the reference parse runs), every test case yields exactly one
settled outcome and passed + failed equals the total. -/
theorem runner_invariant_amended (O : Oracle) (key : String)
    (fetch : String → Option String) (ts : List TestCase)
    (h : ∀ t ∈ ts, performTest O key fetch t ≠ TestOutcome.escaped) :
    passCount O key fetch ts + failCount O key fetch ts = ts.length := by
  induction ts with
  | nil => rfl
  | cons t ts ih =>
    have ht := h t (by simp)
    have hts : ∀ u ∈ ts, performTest O key fetch u ≠ TestOutcome.escaped :=
      fun u hu => h u (by simp [hu])
    have ih2 := ih hts
    unfold passCount failCount at ih2 ⊢
    rw [List.countP_cons, List.countP_cons]
    cases ho : performTest O key fetch t with
    | settled pass =>
      cases pass <;>
        simp [ho,
          show (TestOutcome.settled false == TestOutcome.settled true) = false from rfl,
          show (TestOutcome.settled true == TestOutcome.settled false) = false from rfl,
          show (TestOutcome.settled false == TestOutcome.settled false) = true from rfl,
          show (TestOutcome.settled true == TestOutcome.settled true) = true from rfl] <;>
        omega
    | escaped => exact absurd ho ht

/-- C7 witness: a two-case run, one passing well-formed case and one
fetch-failure case, where 1 passed plus 1 failed equals the total 2. -/
theorem runner_invariant_amended_witness :
    passCount
        (Oracle.mk
          (fun s =>
            if s = "<a/>" then ParseOutcome.ok ⟨[Node.element "a" [] []]⟩
            else if s = "<a/>" ++ piStr "a0" then
              ParseOutcome.ok ⟨[Node.element "a" [] [], Node.pi "a0" ""]⟩
            else ParseOutcome.thrown)
          (fun _ => "<a/>"))
        "a0" (fun u => if u = "ok.xml" then some "<a/>" else none)
        [⟨"ok.xml", true⟩, ⟨"missing.xml", true⟩] +
      failCount
        (Oracle.mk
          (fun s =>
            if s = "<a/>" then ParseOutcome.ok ⟨[Node.element "a" [] []]⟩
            else if s = "<a/>" ++ piStr "a0" then
              ParseOutcome.ok ⟨[Node.element "a" [] [], Node.pi "a0" ""]⟩
            else ParseOutcome.thrown)
          (fun _ => "<a/>"))
        "a0" (fun u => if u = "ok.xml" then some "<a/>" else none)
        [⟨"ok.xml", true⟩, ⟨"missing.xml", true⟩] =
      ([(⟨"ok.xml", true⟩ : TestCase), ⟨"missing.xml", true⟩] : List TestCase).length :=
  runner_invariant_amended
    (Oracle.mk
      (fun s =>
        if s = "<a/>" then ParseOutcome.ok ⟨[Node.element "a" [] []]⟩
        else if s = "<a/>" ++ piStr "a0" then
          ParseOutcome.ok ⟨[Node.element "a" [] [], Node.pi "a0" ""]⟩
        else ParseOutcome.thrown)
      (fun _ => "<a/>"))
    "a0" (fun u => if u = "ok.xml" then some "<a/>" else none)
    [⟨"ok.xml", true⟩, ⟨"missing.xml", true⟩]
    (by decide)

/-- getAttribute on a modelled element: the first attribute with the
given name, if any. -/
def getAttr (attrs : List (String × String)) (name : String) : Option String :=
  (attrs.find? (fun p => p.1 == name)).map (fun p => p.2)

/-- The selectorExclude suffix of src/test.js lines 197-205 as a
predicate: an element is excluded when TYPE is error, ENTITIES is
parameter or both, VERSION is 1.1, or EDITION is 5. -/
def excludedByAttrs (attrs : List (String × String)) : Bool :=
  getAttr attrs "TYPE" == some "error"
    || getAttr attrs "ENTITIES" == some "parameter"
    || getAttr attrs "ENTITIES" == some "both"
    || getAttr attrs "VERSION" == some "1.1"
    || getAttr attrs "EDITION" == some "5"

mutual
/-- querySelectorAll for a TEST tag selector: the attribute lists of all
TEST elements in document order within a node. -/
def testElemsNode : Node → List (List (String × String))
  | Node.element name attrs cs =>
    (if name == "TEST" then [attrs] else []) ++ testElemsList cs
  | _ => []
/-- querySelectorAll for a TEST tag selector over a node list. -/
def testElemsList : List Node → List (List (String × String))
  | [] => []
  | c :: cs => testElemsNode c ++ testElemsList cs
end

/-- One loader loop over selected TEST elements (the push loops shared by
all loaders in src/test.js): keep elements whose TYPE matches the loop's
selector and survive selectorExclude, drop hrefs on the ignore list, and
resolve the URI against the manifest's base location.  getAttribute
returning null is coerced to the string null by the URL constructor. -/
def selectLoop (attrsList : List (List (String × String))) (ignore : List String)
    (base : String) (notWf : Bool) : List TestCase :=
  attrsList.filterMap (fun attrs =>
    if ((getAttr attrs "TYPE" == some "not-wf") == notWf)
        && !(excludedByAttrs attrs) then
      if ignore.contains ((getAttr attrs "URI").getD "null") then none
      else some ⟨base ++ (getAttr attrs "URI").getD "null", !notWf⟩
    else none)

/-- Both loader loops in source order: the well-formed loop (selector
with TYPE not not-wf) followed by the not-wf loop. -/
def selectTests (attrsList : List (List (String × String))) (ignore : List String)
    (base : String) : List TestCase :=
  selectLoop attrsList ignore base false ++ selectLoop attrsList ignore base true

/-- The oasis ignore list of src/test.js lines 207-229. -/
def oasisIgnoreList : List String :=
  ["p04pass1.xml", "p05pass1.xml",
   "p61fail1.xml", "p62fail1.xml", "p62fail2.xml", "p63fail1.xml",
   "p63fail2.xml", "p64fail1.xml", "p64fail2.xml", "p31fail1.xml",
   "p30fail1.xml", "p09fail1.xml", "p09fail2.xml",
   "p28pass3.xml", "p69pass1.xml"]

/-- getOasisTests from src/test.js lines 231-264.  The fetch argument
models tryHttpGetString (none is a failed fetch); a failed fetch makes
parseXmlNative return null, tripping the XMLDocument guard, which logs
and returns the empty list; a throwing oracle parse escapes
(parseXmlNative does not catch).  The root-child restriction of the
selector is modelled by taking TEST elements that are children of the
document element. -/
def getOasisTests (O : Oracle) (fetch : String → Option String)
    (baseUrl : String) : Except Unit (List TestCase) :=
  match fetch (baseUrl ++ "oasis.xml") with
  | none => Except.ok []
  | some s =>
    match O.parse s with
    | ParseOutcome.thrown => Except.error ()
    | ParseOutcome.ok d =>
      Except.ok (selectTests
        (match d.children.filterMap (fun c =>
            match c with
            | Node.element _ _ cs => some cs
            | _ => none) with
         | rootChildren :: _ =>
           rootChildren.filterMap (fun c =>
             match c with
             | Node.element name attrs _ =>
               if name == "TEST" then some attrs else none
             | _ => none)
         | [] => [])
        oasisIgnoreList baseUrl)

/-- The eduni ignore list of src/test.js lines 842-848. -/
def eduniIgnoreList : List String :=
  ["E27.xml", "E61.xml", "E38.xml", "E13.xml"]

/-- The five eduni manifest locations of src/test.js lines 853-862
(relative directory, manifest file name). -/
def eduniManifests : List (String × String) :=
  [("errata-2e/", "errata2e.xml"),
   ("errata-3e/", "errata3e.xml"),
   ("errata-4e/", "errata4e.xml"),
   ("namespaces/1.0/", "rmt-ns10.xml"),
   ("namespaces/errata-1e/", "errata1e.xml")]

/-- One iteration of the getEduniTests manifest loop (src/test.js lines
863-894): fetch and parse the manifest; a failed fetch trips the
XMLDocument guard and contributes nothing (the loop continues); a
throwing parse escapes; otherwise both selection loops run over all TEST
descendants, resolving hrefs against the manifest's directory. -/
def eduniStep (O : Oracle) (fetch : String → Option String) (baseUrl : String)
    (m : String × String) : Except Unit (List TestCase) :=
  match fetch (baseUrl ++ m.1 ++ m.2) with
  | none => Except.ok []
  | some s =>
    match O.parse s with
    | ParseOutcome.thrown => Except.error ()
    | ParseOutcome.ok d =>
      Except.ok (selectTests (testElemsList d.children) eduniIgnoreList
        (baseUrl ++ m.1))

/-- getEduniTests from src/test.js lines 850-897: run the manifest loop
over the five manifests, concatenating each step's contribution. -/
def getEduniTests (O : Oracle) (fetch : String → Option String)
    (baseUrl : String) : Except Unit (List TestCase) :=
  eduniManifests.foldl
    (fun acc m =>
      match acc with
      | Except.error e => Except.error e
      | Except.ok ts =>
        match eduniStep O fetch baseUrl m with
        | Except.error e => Except.error e
        | Except.ok ts2 => Except.ok (ts ++ ts2))
    (Except.ok [])

/-- Concrete splice-demo manifest document used by the C8 counterexample:
a manifest with a single TEST entry. -/
def demoManifestDoc : XmlDoc :=
  ⟨[Node.element "TESTCASES" [] [Node.element "TEST" [("URI", "t1.xml")] []]]⟩

/-- Concrete oracle for the C8 counterexample: parses the one manifest
body and throws on everything else. -/
def demoOracle : Oracle where
  parse := fun s =>
    if s = "M2" then ParseOutcome.ok demoManifestDoc else ParseOutcome.thrown
  serialise := fun _ => ""

/-- Concrete fetch for the C8 counterexample: the first eduni manifest
(and all others except the second) fails to load; the second loads. -/
def demoFetch : String → Option String :=
  fun u => if u = "eduni/errata-3e/errata3e.xml" then some "M2" else none

/-- C8 counterexample: the first eduni manifest fails to load, yet
getEduniTests does not return an empty test-case list — it skips the
failed manifest (the continue at src/test.js lines 869-871) and returns
the cases of the remaining manifests. -/
theorem loader_failure_not_empty_counterexample :
    demoFetch ("eduni/" ++ "errata-2e/" ++ "errata2e.xml") = none ∧
    getEduniTests demoOracle demoFetch "eduni/" =
      Except.ok [⟨"eduni/errata-3e/" ++ "t1.xml", true⟩] ∧
    ([(⟨"eduni/errata-3e/" ++ "t1.xml", true⟩ : TestCase)] : List TestCase) ≠ [] :=
  ⟨rfl, rfl, by decide⟩

/-- Under an oracle whose parse never throws, one eduni manifest step
always settles. -/
theorem eduniStep_ok (O : Oracle) (fetch : String → Option String)
    (base : String) (m : String × String)
    (hO : ∀ s, O.parse s ≠ ParseOutcome.thrown) :
    ∃ l, eduniStep O fetch base m = Except.ok l := by
  unfold eduniStep
  rcases hf : fetch (base ++ m.1 ++ m.2) with _ | s
  · exact ⟨[], rfl⟩
  · rcases hp : O.parse s with d | _
    · refine ⟨selectTests (testElemsList d.children) eduniIgnoreList (base ++ m.1), ?_⟩
      dsimp only
      rw [hp]
    · exact absurd hp (hO s)

/-- Under an oracle whose parse never throws, the eduni manifest fold
always settles. -/
theorem eduniFoldl_ok (O : Oracle) (fetch : String → Option String)
    (base : String) (hO : ∀ s, O.parse s ≠ ParseOutcome.thrown) :
    ∀ (ms : List (String × String)) (ts0 : List TestCase),
      ∃ l, ms.foldl
        (fun acc m =>
          match acc with
          | Except.error e => Except.error e
          | Except.ok ts =>
            match eduniStep O fetch base m with
            | Except.error e => Except.error e
            | Except.ok ts2 => Except.ok (ts ++ ts2))
        (Except.ok ts0) = Except.ok l := by
  intro ms
  induction ms with
  | nil => exact fun ts0 => ⟨ts0, rfl⟩
  | cons m ms ih =>
    intro ts0
    obtain ⟨l, hl⟩ := eduniStep_ok O fetch base m hO
    simpa [List.foldl, hl] using ih (ts0 ++ l)

/-- C8 amended: a manifest that fails to load contributes no test cases —
getOasisTests then returns the empty list, and the affected getEduniTests
step contributes the empty list while the loader continues with its other
manifests (so its overall result need not be empty) — and, provided the
oracle's parse returns rather than throws, no exception escapes either
loader. -/
theorem loader_failure_behaviour (O : Oracle) (fetch : String → Option String)
    (base : String) :
    (fetch (base ++ "oasis.xml") = none → getOasisTests O fetch base = Except.ok []) ∧
    (∀ m : String × String, fetch (base ++ m.1 ++ m.2) = none →
      eduniStep O fetch base m = Except.ok []) ∧
    ((∀ s, O.parse s ≠ ParseOutcome.thrown) →
      (∃ l, getOasisTests O fetch base = Except.ok l) ∧
      (∃ l2, getEduniTests O fetch base = Except.ok l2)) := by
  refine ⟨fun h => by simp [getOasisTests, h],
    fun m h => by simp [eduniStep, h], fun hO => ⟨?_, ?_⟩⟩
  · unfold getOasisTests
    rcases hf : fetch (base ++ "oasis.xml") with _ | s
    · exact ⟨[], rfl⟩
    · rcases hp : O.parse s with d | _
      · exact ⟨_, by dsimp only; rw [hp]⟩
      · exact absurd hp (hO s)
  · exact eduniFoldl_ok O fetch base hO eduniManifests []

/-- Concrete never-throwing oracle for the C8 witness. -/
def quietOracle : Oracle where
  parse := fun _ => ParseOutcome.ok ⟨[]⟩
  serialise := fun _ => ""

/-- C8 witness: with every fetch failing and a never-throwing oracle,
both modelled loaders settle, with the empty list where the amended claim
requires it. -/
theorem loader_failure_behaviour_witness :
    getOasisTests quietOracle (fun _ => none) "b/" = Except.ok [] ∧
    eduniStep quietOracle (fun _ => none) "b/" ("errata-2e/", "errata2e.xml") =
      Except.ok [] ∧
    (∃ l, getOasisTests quietOracle (fun _ => none) "b/" = Except.ok l) ∧
    (∃ l2, getEduniTests quietOracle (fun _ => none) "b/" = Except.ok l2) := by
  have h := loader_failure_behaviour quietOracle (fun _ => none) "b/"
  have hO : ∀ s, quietOracle.parse s ≠ ParseOutcome.thrown :=
    fun s hs => ParseOutcome.noConfusion hs
  exact ⟨h.1 rfl, h.2.1 ("errata-2e/", "errata2e.xml") rfl,
    (h.2.2 hO).1, (h.2.2 hO).2⟩
